import Mathlib

/-!
Shallow embedding of the `notion-df` Python library (files
`notion_df/base.py`, `notion_df/agent.py`, `notion_df/blocks.py`)
and proofs about its claimed behaviour.

Pydantic model construction is embedded as an explicit smart constructor
returning `Except String` - the `.error` case stands for a pydantic
`ValidationError`.  Python `None` becomes `Option.none`; optional fields
become `Option` fields.  Functions of the repository that live in modules
missing from the sources (`notion_df.utils`, `notion_df.constants`,
`notion_df.configs`) are modelled from the spec and marked as such in
their doc comments.
-/

namespace NotionDf

/-- Modelled from the spec: the predicate `is_time_string` of
`notion_df.utils` is not among the sources; the spec describes the
invariant it enforces as "ISO-8601 date strings".  We model it as a
checker for `YYYY-MM-DD`, optionally followed by `THH:MM:SS`. -/
def is_time_string (s : String) : Bool :=
  let cs := s.data
  let isD : Char → Bool := Char.isDigit
  let two : Char → Char → Nat := fun a b => 10 * a.toNat + b.toNat - 528
  let dateOk : List Char → Bool := fun l =>
    match l with
    | [y1, y2, y3, y4, '-', m1, m2, '-', d1, d2] =>
        isD y1 && isD y2 && isD y3 && isD y4 &&
        isD m1 && isD m2 && isD d1 && isD d2 &&
        (1 ≤ two m1 m2) && (two m1 m2 ≤ 12) &&
        (1 ≤ two d1 d2) && (two d1 d2 ≤ 31)
    | _ => false
  let timeOk : List Char → Bool := fun l =>
    match l with
    | [h1, h2, ':', n1, n2, ':', s1, s2] =>
        isD h1 && isD h2 && isD n1 && isD n2 && isD s1 && isD s2 &&
        (two h1 h2 ≤ 23) && (two n1 n2 ≤ 59) && (two s1 s2 ≤ 59)
    | _ => false
  dateOk cs ||
    (cs.length = 19 && dateOk (cs.take 10) &&
      (cs.drop 10).headD ' ' = 'T' && timeOk (cs.drop 11))

/-- Modelled from the spec: the predicate `is_uuid` of `notion_df.utils`
is not among the sources; the spec describes the invariant it enforces as
"UUID-shaped identifiers".  We model it as the canonical 8-4-4-4-12
hexadecimal shape with hyphens. -/
def is_uuid (s : String) : Bool :=
  let cs := s.data
  let hexRun : List Char → Bool := fun l => l.all (fun c => c.isDigit || ('a' ≤ c && c ≤ 'f') || ('A' ≤ c && c ≤ 'F'))
  match (cs.splitOn '-').map (fun g => (g, g.length)) with
  | [(g1, 8), (g2, 4), (g3, 4), (g4, 4), (g5, 12)] =>
      hexRun g1 && hexRun g2 && hexRun g3 && hexRun g4 && hexRun g5
  | _ => false

/-- Modelled from the spec: the constant `RICH_TEXT_CONTENT_MAX_LENGTH`
of `notion_df.constants` is not among the sources; it is the hosted
service's maximum length of one rich-text content chunk, 2000. -/
def RICH_TEXT_CONTENT_MAX_LENGTH : Nat := 2000

/-- Embeds `NotionColorEnum` of `base.py`. -/
inductive NotionColorEnum where
  | Default | Gray | Brown | Orange | Yellow | Green | Blue | Purple | Pink | Red
deriving DecidableEq, Repr

/-- Embeds `RichTextTypeEnum` of `base.py`. -/
inductive RichTextTypeEnum where
  | Text | Mention | Equation
deriving DecidableEq, Repr

/-- Embeds `SelectOption` of `base.py` (fields `id`, `name`, `color`). -/
structure SelectOption where
  id : Option String
  name : String
  color : Option NotionColorEnum
deriving DecidableEq, Repr

/-- Embeds pydantic construction of `SelectOption`: the field validator
`name_cannot_contain_comma` rejects a `name` containing a comma. -/
def SelectOption.make (id : Option String) (name : String)
    (color : Option NotionColorEnum) : Except String SelectOption :=
  if ',' ∈ name.data then
    .error ("Invalid option name " ++ name ++ " that contains comma")
  else
    .ok ⟨id, name, color⟩

/-- Embeds `SelectOption.from_value`: `cls(name=value)` with the other
fields left at their `None` defaults. -/
def SelectOption.from_value (value : String) : Except String SelectOption :=
  SelectOption.make none value none

/-- Embeds `RelationObject` of `base.py` (field `id`). -/
structure RelationObject where
  id : String
deriving DecidableEq, Repr

/-- Embeds pydantic construction of `RelationObject`: the field validator
`id_must_be_uuid` rejects an `id` that is not UUID-shaped. -/
def RelationObject.make (id : String) : Except String RelationObject :=
  if ¬ is_uuid id then .error ("Invalid id " ++ id)
  else .ok ⟨id⟩

/-- Embeds `RelationObject.from_value`: `cls(id=value)`. -/
def RelationObject.from_value (value : String) : Except String RelationObject :=
  RelationObject.make value

/-- Embeds `DateObject` of `base.py` (fields `start`, `end`, `time_zone`). -/
structure DateObject where
  start : Option String
  end_ : Option String
  time_zone : Option String
deriving DecidableEq, Repr

/-- Embeds pydantic construction of `DateObject`: the validators
`is_start_ISO8601` and `is_end_ISOB601` reject a non-`None` `start`
resp. `end` for which `is_time_string` fails. -/
def DateObject.make (start end_ time_zone : Option String) :
    Except String DateObject :=
  match start with
  | some v =>
    if ¬ is_time_string v then
      .error "The data start is not appropriately formatted as an ISO 8601 date string."
    else
      match end_ with
      | some w =>
        if ¬ is_time_string w then
          .error "The data end is not appropriately formatted as an ISO 8601 date string."
        else .ok ⟨start, end_, time_zone⟩
      | none => .ok ⟨start, end_, time_zone⟩
  | none =>
    match end_ with
    | some w =>
      if ¬ is_time_string w then
        .error "The data end is not appropriately formatted as an ISO 8601 date string."
      else .ok ⟨start, end_, time_zone⟩
    | none => .ok ⟨start, end_, time_zone⟩

/-- Embeds `DateObject.from_value`: `cls(start=value)`. -/
def DateObject.from_value (value : String) : Except String DateObject :=
  DateObject.make (some value) none none

/-- Values a Python `.value` property of this library can return: `None`,
a float, a pandas timestamp, or a list of such values. -/
inductive PyValue where
  | none
  | float (x : Rat)
  | timestamp (t : Option String)
  | list (l : List PyValue)

/-- Models the external `pandas.to_datetime`: the resulting timestamp is
identified by the string it was parsed from (`to_datetime(None)` is
`NaT`, modelled as `timestamp none`).  Pandas is an external collaborator
of the repository, so only its use as an opaque parse is embedded. -/
def pd_to_datetime (s : Option String) : PyValue :=
  .timestamp s

/-- Embeds the `value` property of `DateObject`:
`pd.to_datetime(self.start)`. -/
def DateObject.value (o : DateObject) : PyValue :=
  pd_to_datetime o.start

/-- Models one element of `RollupObject.array`.  The source types the
elements as `Any` (a comment says each is a property value object) and
the only thing the source ever does with one is read its `value`
property, so an element is embedded as the value it exposes. -/
structure RollupElement where
  value : PyValue

/-- Embeds `RollupObject` of `base.py` (fields `type`, `number`, `date`,
`array`, `function`). -/
structure RollupObject where
  type : String
  number : Option Rat
  date : Option DateObject
  array : Option (List RollupElement)
  function : Option String

/-- Embeds pydantic construction of `RollupObject`: the field validator
`ensure_non_empty_data` rejects a `type` outside
`number`, `date`, `array`.  (The validator's `None` check is
unreachable: `type` is a required `str` field.) -/
def RollupObject.make (type : String) (number : Option Rat)
    (date : Option DateObject) (array : Option (List RollupElement))
    (function : Option String) : Except String RollupObject :=
  if type ∉ ["number", "date", "array"] then
    .error ("RollupObject type " ++ type ++ " is invalid.")
  else
    .ok ⟨type, number, date, array, function⟩

/-- Embeds the `value` property of `RollupObject`.  The Python body is a
sequence of plain `if`s falling through to an implicit `return None`;
for `type == "array"` the comprehension `[ele.value for ele in
self.array]` iterates `self.array`, raising a `TypeError` when that
field is `None`.  The `.error` case stands for that escaping exception. -/
def RollupObject.value (o : RollupObject) : Except String PyValue :=
  if o.type = "number" then
    .ok (match o.number with | some x => .float x | Option.none => .none)
  else if o.type = "date" then
    match o.date with
    | some d => .ok d.value
    | Option.none => .ok .none
  else if o.type = "array" then
    match o.array with
    | some l => .ok (.list (l.map RollupElement.value))
    | Option.none => .error "TypeError: NoneType object is not iterable"
  else
    .ok .none

/-- Embeds `TextLinkObject` of `base.py`. -/
structure TextLinkObject where
  type : Option String
  url : String
deriving DecidableEq, Repr

/-- Embeds `TextObject` of `base.py` (fields `content`, `link`). -/
structure TextObject where
  content : String
  link : Option TextLinkObject
deriving DecidableEq, Repr

/-- Embeds `AnnotationObject` of `base.py` (the extended colour enum is
embedded as its string value). -/
structure AnnotationObject where
  bold : Bool
  italic : Bool
  strikethrough : Bool
  underline : Bool
  code : Bool
  color : String
deriving DecidableEq, Repr

/-- Embeds `EquationObject` of `base.py`. -/
structure EquationObject where
  expression : String
deriving DecidableEq, Repr

/-- Embeds `MentionObject` of `base.py`, with its sub-objects flattened
to the fields the claims touch (none of them is ever read). -/
structure MentionObject where
  type : String
  user : Option String
  page : Option String
  database : Option String
  date : Option DateObject
  link_preview : Option String
deriving DecidableEq, Repr

/-- Embeds `RichTextObject` of `base.py`, fields of
`BaseRichTextObject` included.  Neither class declares a field
validator, so construction is total. -/
structure RichTextObject where
  plain_text : Option String
  href : Option String
  annotations : Option AnnotationObject
  type : Option RichTextTypeEnum
  text : Option TextObject
  mention : Option MentionObject
  equation : Option EquationObject
deriving DecidableEq, Repr

/-- Embeds the `value` property of `BaseRichTextObject`:
`return self.plain_text`. -/
def RichTextObject.value (o : RichTextObject) : Option String :=
  o.plain_text

/-- Embeds `RichTextObject.from_value`:
`cls(text=TextObject(content=value))`, every other field left at its
`None` default. -/
def RichTextObject.from_value (value : String) : RichTextObject :=
  ⟨none, none, none, none, some ⟨value, none⟩, none, none⟩

/-- Splits a list into consecutive chunks of `k` elements (the last chunk
may be shorter), mirroring the slicing loop
`value[idx : idx + chunk_size] for idx in range(0, len(value), chunk_size)`
of `RichTextObject.encode_string`.  (Python `range` with step `0` would
raise; the `k = 0` guard only serves termination and is never exercised:
the sole call site passes 2000.) -/
def chunkList (k : Nat) (l : List α) : List (List α) :=
  if _h : l.isEmpty ∨ k = 0 then []
  else l.take k :: chunkList k (l.drop k)
termination_by l.length
decreasing_by
  simp only [not_or, List.isEmpty_iff] at _h
  obtain ⟨h1, h2⟩ := _h
  have : 0 < l.length := List.length_pos.mpr h1
  simp only [List.length_drop]
  omega

/-- Embeds `RichTextObject.encode_string`: the string is cut into chunks
of `RICH_TEXT_CONTENT_MAX_LENGTH` characters, each wrapped exactly as
`from_value` wraps a string. -/
def RichTextObject.encode_string (value : String) : List RichTextObject :=
  (chunkList RICH_TEXT_CONTENT_MAX_LENGTH value.data).map
    (fun cs => RichTextObject.from_value (String.mk cs))

/-! ## agent.py -/

/-- Embeds `config` of `agent.py`: `config(api_key)` assigns the
module-level global `API_KEY`; the returned value is the new state of
that global. -/
def config (api_key : String) : Option String :=
  some api_key

/-- Embeds `_load_api_key` of `agent.py`.  The module-level global
`API_KEY` and the environment lookup
`os.environ.get("NOTION_API_KEY")` become explicit arguments; the
`.error` case stands for the raised `ValueError`. -/
def load_api_key (API_KEY : Option String) (env_notion_api_key : Option String)
    (api_key : Option String) : Except String String :=
  match api_key with
  | some k => .ok k
  | none =>
    match API_KEY with
    | some k => .ok k
    | none =>
      match env_notion_api_key with
      | some k => .ok k
      | none => .error "No API key provided"

/-- Observable effect of processing one dataframe row inside
`upload_to_database`: the row's page was created, or its upload failed
and a warning was emitted, or its upload failed and the failure was
silently skipped. -/
inductive RowEvent where
  | success
  | warned (e : String)
  | silent (e : String)
deriving DecidableEq, Repr

/-- Outcome of an `upload_to_database` call: the per-row events in
processing order, and the exception it re-raised, if any. -/
structure UploadRun where
  events : List RowEvent
  raised : Option String
deriving DecidableEq, Repr

/-- Embeds the row loop of `upload_to_database` over the iteration
order.  Each row is abstracted to the outcome of its
`upload_row_to_database` call: `none` when the page is created, `some e`
when that call raises the exception `e`.  On a failure: with
`errors == "strict"` the exception is re-raised, with `errors == "warn"`
a warning is emitted and the loop continues, and in every other case
(`"ignore"` hits `continue`; any other value falls off the `if`/`elif`
chain) the loop silently continues. -/
def processRows (errors : String) : List (Option String) → UploadRun
  | [] => ⟨[], none⟩
  | r :: rest =>
    match r with
    | none =>
      let t := processRows errors rest
      ⟨.success :: t.events, t.raised⟩
    | some e =>
      if errors = "strict" then ⟨[], some e⟩
      else if errors = "warn" then
        let t := processRows errors rest
        ⟨.warned e :: t.events, t.raised⟩
      else
        let t := processRows errors rest
        ⟨.silent e :: t.events, t.raised⟩

/-- Embeds `upload_to_database` of `agent.py`: it iterates
`df[::NOT_REVERSE_DATAFRAME]`, i.e. the dataframe rows in reversed
order (`NOT_REVERSE_DATAFRAME = -1`), applying the per-row error policy
of `processRows`.  `rows` lists the rows in dataframe order. -/
def upload_to_database (rows : List (Option String)) (errors : String) :
    UploadRun :=
  processRows errors rows.reverse

/-- Embeds `DatabaseSchema` of `notion_df.configs` as far as `upload`
needs it: the set of configured column keys (`schema.configs.keys()`). -/
structure Schema where
  configKeys : List String
deriving DecidableEq, Repr

/-- Modelled from the spec: `DatabaseSchema.is_df_compatible` lives in
`notion_df.configs`, which is not among the sources.  Per the
`ValueError` message in `upload` ("The df contains columns that are not
in the databse"), a dataframe is compatible when every one of its
columns is among the schema's configured keys. -/
def Schema.is_df_compatible (schema : Schema) (columns : List String) : Bool :=
  columns.all (fun c => schema.configKeys.contains c)

/-- Abstraction of a pandas dataframe as `upload` consumes one: its
column names, its `schema` attribute when `load` attached one
(`hasattr(df, "schema")`), and the per-row upload outcomes of its
(transformed) rows in dataframe order. -/
structure DF where
  columns : List String
  schemaAttr : Option Schema
  rows : List (Option String)
deriving DecidableEq, Repr

/-- Responses of the external collaborators that `upload` consults: the
id and url of a database created under a page, the schema retrieved
from an existing database, the schema `DatabaseSchema.from_df` infers
from the dataframe, and the id `get_id` extracts from the target URL. -/
structure UploadEnv where
  created_database_id : String
  created_database_url : String
  loaded_schema : Schema
  inferred_schema : Schema
  url_id : String
deriving DecidableEq, Repr

/-- Error result of an `upload` call: the schema-compatibility
`ValueError`, the unimplemented-mode `NotImplementedError`, or a row
exception re-raised out of `upload_to_database`. -/
inductive UploadError where
  | valueError (msg : String)
  | notImplementedError
  | rowExc (e : String)
deriving DecidableEq, Repr

/-- Side effects an `upload` call performed: whether `create_database`
ran, whether `schema.transform(df)` ran, and the per-row events of the
`upload_to_database` loop. -/
structure UploadEffects where
  created_database : Bool
  transformed : Bool
  rowEvents : List RowEvent
deriving DecidableEq, Repr

/-- Embeds the schema resolution of `upload`: the explicit argument
wins, then the dataframe's `schema` attribute
(`hasattr(df, "schema")`), then - depending on the URL kind - the
schema inferred by `DatabaseSchema.from_df` or the one retrieved from
the existing database. -/
def resolve_schema (env : UploadEnv) (df : DF) (is_db_url : Bool)
    (schema0 : Option Schema) : Schema :=
  match (match schema0 with
         | none => df.schemaAttr
         | some s => some s) with
  | some s => s
  | none => if ¬ is_db_url then env.inferred_schema else env.loaded_schema

/-- Embeds `upload` of `agent.py`, its external calls answered by
`env`.  `is_db_url` embeds `_is_notion_database(notion_url)`.  The
pipeline is the source's: resolve the schema via `resolve_schema`,
creating a database (and taking its url as the result) when the target
is a page url, check `is_df_compatible` (raising `ValueError`), check
the mode (raising `NotImplementedError` unless it is `"a"` or
`"append"`), then transform the dataframe and run
`upload_to_database`. -/
def upload (env : UploadEnv) (df : DF) (notion_url : String)
    (is_db_url : Bool) (schema0 : Option Schema) (mode : String)
    (errors : String) : Except UploadError String × UploadEffects :=
  let schema := resolve_schema env df is_db_url schema0
  let outUrl := if ¬ is_db_url then env.created_database_url else notion_url
  let created := !is_db_url
  if ¬ schema.is_df_compatible df.columns then
    (.error (.valueError
        "The dataframe is not compatible with the database schema."),
      ⟨created, false, []⟩)
  else if mode ∉ ["a", "append"] then
    (.error .notImplementedError, ⟨created, false, []⟩)
  else
    let run := upload_to_database df.rows errors
    match run.raised with
    | some e => (.error (.rowExc e), ⟨created, true, run.events⟩)
    | none => (.ok outUrl, ⟨created, true, run.events⟩)

/-! ## blocks.py -/

/-- Embeds the keys of `BLOCKS_MAPPING` of `blocks.py`: the last
declared pydantic field of each `BaseNotionBlock` subclass, which is
that subclass's type-named attribute field. -/
def BLOCKS_MAPPING_keys : List String :=
  ["paragraph", "heading_1", "heading_2", "heading_3", "callout",
   "quote", "bulleted_list_item", "numbered_list_item", "to_do",
   "toggle", "code", "child_page", "child_database", "embed", "image",
   "video", "file", "pdf", "bookmark", "equation", "divider",
   "table_of_contents", "breadcrumb", "link_preview", "link_to_page"]

/-- Abstraction of one raw block dict as `parse_one_block` consumes it:
its `"type"` key and the `BaseNotionBlock` fields `parse_blocks` reads.
The per-type attribute payload is not represented; pydantic validation
of a payload of a known type is modelled as succeeding. -/
structure BlockData where
  type : String
  id : Option String
  has_children : Option Bool
deriving DecidableEq, Repr

/-- A parsed `BaseNotionBlock`: its type, id, `has_children` flag and
the `children` list of its attribute object (set by `set_children`). -/
structure Block where
  type : String
  id : Option String
  has_children : Option Bool
  children : Option (List Block)

/-- Embeds `parse_one_block` of `blocks.py`: an unknown `"type"` emits
the warning `Unknown block type: ...` and returns `None`; a known type
validates into the mapped block model.  The first component collects
the emitted warnings. -/
def parse_one_block (d : BlockData) : (List String) × Option Block :=
  if d.type ∉ BLOCKS_MAPPING_keys then
    (["Unknown block type: " ++ d.type], none)
  else
    ([], some ⟨d.type, d.id, d.has_children, none⟩)

/-- Truthiness of an `Optional[bool]` in a Python condition. -/
def truthy : Option Bool → Bool
  | some true => true
  | _ => false

/-- Embeds `client.blocks.children.list(block_id=...)["results"]`: the
children the external client returns for a block id. -/
def BClient : Type := Option String → List BlockData

/-- Embeds `parse_blocks` of `blocks.py`.  For each element it calls
`parse_one_block`; it then reads `block.has_children` - an
`AttributeError` escapes when `parse_one_block` returned `None` - and,
when that flag, `recursive` and `client` are all truthy, fetches and
parses the block's children recursively (`fuel` bounds the nesting
depth, standing for the Python call stack).  The first component
collects the warnings emitted along the way; the `.error` case stands
for an escaping exception. -/
def parse_blocks (fuel : Nat) (data : List BlockData) (recursive : Bool)
    (client : Option BClient) : (List String) × Except String (List Block) :=
  match data with
  | [] => ([], .ok [])
  | d :: rest =>
    match parse_one_block d with
    | (w1, none) =>
      (w1, .error "AttributeError: NoneType object has no attribute has_children")
    | (w1, some b) =>
      match client, truthy b.has_children && recursive with
      | some cl, true =>
        match fuel with
        | 0 => (w1, .error "RecursionError: maximum recursion depth exceeded")
        | fuel' + 1 =>
          match parse_blocks fuel' (cl b.id) recursive (some cl) with
          | (w2, .error e) => (w1 ++ w2, .error e)
          | (w2, .ok cs) =>
            match parse_blocks (fuel' + 1) rest recursive (some cl) with
            | (w3, .error e) => (w1 ++ w2 ++ w3, .error e)
            | (w3, .ok bs) =>
              (w1 ++ w2 ++ w3, .ok (⟨b.type, b.id, b.has_children, some cs⟩ :: bs))
      | _, _ =>
        match parse_blocks fuel rest recursive client with
        | (w3, .error e) => (w1 ++ w3, .error e)
        | (w3, .ok bs) => (w1 ++ w3, .ok (b :: bs))
termination_by (fuel, data.length)

/-! ## Theorems -/

/-- C3: constructing a `SelectOption` raises a validation error if and
only if the `name` field contains a comma character; for every
comma-free string `v`, `SelectOption.from_value v` succeeds and yields
an option whose `name` equals `v`. -/
theorem selectOption_comma_validation (id : Option String) (name : String)
    (color : Option NotionColorEnum) (v : String)
    (hv : ',' ∉ v.data) :
    ((∃ msg, SelectOption.make id name color = .error msg) ↔
      ',' ∈ name.data) ∧
    SelectOption.from_value v = .ok ⟨none, v, none⟩ := by
  constructor
  · by_cases h : ',' ∈ name.data
    · simp [SelectOption.make, h]
    · simp [SelectOption.make, h]
  · simp [SelectOption.from_value, SelectOption.make, hv]

/-- Witness for `selectOption_comma_validation` at `name = "a,b"`,
`v = "ok"`. -/
theorem selectOption_comma_validation_witness :
    (∃ msg, SelectOption.make none "a,b" none = .error msg) ∧
    SelectOption.from_value "ok" = .ok ⟨none, "ok", none⟩ := by
  have h := selectOption_comma_validation none "a,b" none "ok" (by decide)
  exact ⟨h.1.mpr (by decide), h.2⟩

/-- C5: constructing a `RelationObject` raises a validation error if and
only if its `id` is not UUID-shaped; `RelationObject.from_value v`
succeeds exactly when `v` is a valid UUID string and then yields an
object whose `id` equals `v`. -/
theorem relationObject_uuid_validation (id v : String)
    (hvalid : is_uuid v = true) :
    ((∃ msg, RelationObject.make id = .error msg) ↔ is_uuid id = false) ∧
    ((∃ r, RelationObject.from_value id = .ok r) ↔ is_uuid id = true) ∧
    RelationObject.from_value v = .ok ⟨v⟩ := by
  refine ⟨?_, ?_, ?_⟩
  · by_cases h : is_uuid id <;> simp [RelationObject.make, h]
  · by_cases h : is_uuid id <;>
      simp [RelationObject.from_value, RelationObject.make, h]
  · simp [RelationObject.from_value, RelationObject.make, hvalid]

/-- Witness for `relationObject_uuid_validation` at a malformed id and a
canonical UUID. -/
theorem relationObject_uuid_validation_witness :
    (∃ msg, RelationObject.make "nope" = .error msg) ∧
    RelationObject.from_value "123e4567-e89b-12d3-a456-426614174000" =
      .ok ⟨"123e4567-e89b-12d3-a456-426614174000"⟩ := by
  have h := relationObject_uuid_validation "nope"
    "123e4567-e89b-12d3-a456-426614174000" (by decide)
  exact ⟨h.1.mpr (by decide), h.2.2⟩

/-- C4: constructing a `DateObject` raises a validation error if and
only if a supplied non-`None` `start` or non-`None` `end` string fails
the ISO-8601 time-string check; when `start` and `end` are both `None`
or both valid time strings, construction succeeds with those fields
unchanged. -/
theorem dateObject_iso8601_validation (start end_ tz : Option String) :
    ((∃ msg, DateObject.make start end_ tz = .error msg) ↔
      ((∃ va, start = some va ∧ is_time_string va = false) ∨
       (∃ vb, end_ = some vb ∧ is_time_string vb = false))) ∧
    ((start = none ∧ end_ = none) ∨
      (∃ va vb, start = some va ∧ end_ = some vb ∧
        is_time_string va = true ∧ is_time_string vb = true) →
      DateObject.make start end_ tz = .ok ⟨start, end_, tz⟩) := by
  constructor
  · rcases start with _ | va <;> rcases end_ with _ | vb
    · simp [DateObject.make]
    · by_cases h : is_time_string vb <;> simp [DateObject.make, h]
    · by_cases h : is_time_string va <;> simp [DateObject.make, h]
    · by_cases h1 : is_time_string va <;> by_cases h2 : is_time_string vb <;>
        simp [DateObject.make, h1, h2]
  · rintro (⟨rfl, rfl⟩ | ⟨va, vb, rfl, rfl, h3, h4⟩)
    · simp [DateObject.make]
    · simp [DateObject.make, h3, h4]

/-- Witness for `dateObject_iso8601_validation` at two valid dates,
plus a rejection derived from the same theorem at a malformed start. -/
theorem dateObject_iso8601_validation_witness :
    DateObject.make (some "2022-01-31") (some "2022-02-01") none =
      .ok ⟨some "2022-01-31", some "2022-02-01", none⟩ ∧
    (∃ msg, DateObject.make (some "bogus") none none = .error msg) := by
  constructor
  · exact (dateObject_iso8601_validation (some "2022-01-31")
      (some "2022-02-01") none).2
      (Or.inr ⟨"2022-01-31", "2022-02-01", rfl, rfl, by decide, by decide⟩)
  · exact (dateObject_iso8601_validation (some "bogus") none none).1.mpr
      (Or.inl ⟨"bogus", rfl, by decide⟩)

/-- C8: `_load_api_key` resolves the key by a fixed precedence - the
explicit argument, then the module global `API_KEY` (as set by
`config`), then the `NOTION_API_KEY` environment variable - and raises
`ValueError "No API key provided"` exactly when all three are absent. -/
theorem load_api_key_precedence (g e a : Option String) (k : String) :
    (a = some k → load_api_key g e a = .ok k) ∧
    (a = none → g = some k → load_api_key g e a = .ok k) ∧
    (a = none → g = none → e = some k → load_api_key g e a = .ok k) ∧
    (load_api_key g e a = .error "No API key provided" ↔
      (a = none ∧ g = none ∧ e = none)) ∧
    load_api_key (config k) e none = .ok k := by
  refine ⟨?_, ?_, ?_, ?_, ?_⟩
  · rintro rfl; rfl
  · rintro rfl rfl; rfl
  · rintro rfl rfl rfl; rfl
  · rcases a with _ | ka <;> rcases g with _ | kg <;> rcases e with _ | ke <;>
      simp [load_api_key]
  · rfl

/-- Witness for `load_api_key_precedence` at concrete option values:
the argument wins over a set global, the global wins over the
environment, the environment is the last resort, and the error appears
only with all three absent. -/
theorem load_api_key_precedence_witness :
    load_api_key (some "g") (some "e") (some "a") = .ok "a" ∧
    load_api_key (some "g") (some "e") none = .ok "g" ∧
    load_api_key none (some "e") none = .ok "e" ∧
    load_api_key none none none = .error "No API key provided" := by
  refine ⟨?_, ?_, ?_, ?_⟩
  · exact (load_api_key_precedence (some "g") (some "e") (some "a") "a").1 rfl
  · exact (load_api_key_precedence (some "g") (some "e") none "g").2.1 rfl rfl
  · exact (load_api_key_precedence none (some "e") none "e").2.2.1 rfl rfl rfl
  · exact (load_api_key_precedence none none none "x").2.2.2.1.mpr ⟨rfl, rfl, rfl⟩

/-- C2 counterexample: the round-trip claimed for `RichTextObject`
fails - `from_value "a"` stores `"a"` only in `text.content`, while the
`value` property reads `plain_text`, which `from_value` leaves `None`,
so `value` does not return `"a"`. -/
theorem richText_round_trip_counterexample :
    ¬ ((RichTextObject.from_value "a").value = some "a") := by
  simp [RichTextObject.from_value, RichTextObject.value]

/-- C2 (amended): `RichTextObject.from_value v` always constructs
successfully (the class declares no validator) and stores `v` as
`text.content`; its `value` property returns `plain_text`, which
`from_value` leaves at its `None` default, so `value` yields `None`
rather than `v`. -/
theorem richText_from_value_behaviour (v : String) :
    (RichTextObject.from_value v).text = some ⟨v, none⟩ ∧
    (RichTextObject.from_value v).value = (RichTextObject.from_value v).plain_text ∧
    (RichTextObject.from_value v).value = none :=
  ⟨rfl, rfl, rfl⟩

/-- C6 counterexample: `RollupObject(type="array")` passes validation
with `array` left `None`, and its `value` property then raises a
`TypeError` (iterating `None`) instead of returning a list of element
values. -/
theorem rollup_array_none_counterexample :
    RollupObject.make "array" none none none none =
      .ok ⟨"array", none, none, none, none⟩ ∧
    RollupObject.value ⟨"array", none, none, none, none⟩ =
      .error "TypeError: NoneType object is not iterable" := by
  exact ⟨rfl, rfl⟩

/-- C6 (amended): constructing a `RollupObject` raises a validation
error if and only if its `type` is none of `"number"`, `"date"`,
`"array"`; for an accepted object, `value` returns the `number` field
when `type` is `"number"`, the parsed date value when `type` is
`"date"` and `date` is non-`None`, and, when `array` is non-`None`, the
list of element values when `type` is `"array"`; with `type "array"`
and `array` `None`, `value` raises a `TypeError`. -/
theorem rollupObject_validation_and_value (t : String) (n : Option Rat)
    (d : Option DateObject) (a : Option (List RollupElement))
    (f : Option String) :
    ((∃ msg, RollupObject.make t n d a f = .error msg) ↔
      ¬ (t = "number" ∨ t = "date" ∨ t = "array")) ∧
    (t = "number" →
      RollupObject.value ⟨t, n, d, a, f⟩ =
        .ok (match n with | some x => .float x | none => .none)) ∧
    (∀ dd, t = "date" → d = some dd →
      RollupObject.value ⟨t, n, d, a, f⟩ = .ok dd.value) ∧
    (∀ l, t = "array" → a = some l →
      RollupObject.value ⟨t, n, d, a, f⟩ =
        .ok (.list (l.map RollupElement.value))) ∧
    (t = "array" → a = none →
      RollupObject.value ⟨t, n, d, a, f⟩ =
        .error "TypeError: NoneType object is not iterable") := by
  refine ⟨?_, ?_, ?_, ?_, ?_⟩
  · by_cases h : t = "number" ∨ t = "date" ∨ t = "array" <;>
      simp [RollupObject.make, h]
  · rintro rfl; simp [RollupObject.value]
  · rintro dd rfl rfl; simp [RollupObject.value]
  · rintro l rfl rfl; simp [RollupObject.value]
  · rintro rfl rfl; simp [RollupObject.value]

/-- Witness for `rollupObject_validation_and_value` at concrete rollup
objects of each accepted type and one rejected type. -/
theorem rollupObject_validation_and_value_witness :
    RollupObject.value ⟨"number", some 3, none, none, none⟩ = .ok (.float 3) ∧
    RollupObject.value ⟨"date", none, some ⟨some "2022-01-31", none, none⟩, none, none⟩ =
      .ok (.timestamp (some "2022-01-31")) ∧
    RollupObject.value ⟨"array", none, none, some [⟨.float 1⟩], none⟩ =
      .ok (.list [.float 1]) ∧
    (∃ msg, RollupObject.make "bogus" none none none none = .error msg) := by
  refine ⟨?_, ?_, ?_, ?_⟩
  · exact (rollupObject_validation_and_value "number" (some 3) none none none).2.1 rfl
  · exact (rollupObject_validation_and_value "date" none
      (some ⟨some "2022-01-31", none, none⟩) none none).2.2.1
      ⟨some "2022-01-31", none, none⟩ rfl rfl
  · exact (rollupObject_validation_and_value "array" none none
      (some [⟨.float 1⟩]) none).2.2.2.1 [⟨.float 1⟩] rfl rfl
  · exact (rollupObject_validation_and_value "bogus" none none none none).1.mpr
      (by simp)

/-- Every chunk `chunkList` produces has at most `k` elements. -/
theorem chunkList_length_le {α : Type} (k : Nat) (l : List α) :
    ∀ c ∈ chunkList k l, c.length ≤ k := by
  induction l using chunkList.induct k with
  | case1 x h =>
    rw [chunkList, dif_pos h]
    simp
  | case2 x h ih =>
    rw [chunkList, dif_neg h]
    intro c hc
    rcases List.mem_cons.mp hc with hc | hc
    · subst hc
      rw [List.length_take]
      exact inf_le_left
    · exact ih c hc

/-- Concatenating the chunks of `chunkList` restores the list. -/
theorem chunkList_flatten {α : Type} (k : Nat) (hk : k ≠ 0) (l : List α) :
    (chunkList k l).flatten = l := by
  induction l using chunkList.induct k with
  | case1 x h =>
    rcases h with h | h
    · rw [chunkList, dif_pos (Or.inl h)]
      simp [List.isEmpty_iff.mp h]
    · exact absurd h hk
  | case2 x h ih =>
    rw [chunkList, dif_neg h]
    simp only [List.flatten_cons, ih]
    exact List.take_append_drop k x

/-- The chunk list is empty exactly for the empty list (chunk size
nonzero). -/
theorem chunkList_eq_nil_iff {α : Type} (k : Nat) (hk : k ≠ 0) (l : List α) :
    chunkList k l = [] ↔ l = [] := by
  by_cases h : l.isEmpty ∨ k = 0
  · rcases h with h | h
    · rw [chunkList, dif_pos (Or.inl h)]
      simp [List.isEmpty_iff.mp h]
    · exact absurd h hk
  · rw [chunkList, dif_neg h]
    simp only [not_or, List.isEmpty_iff] at h
    simp [h.1]

/-- Joining the `String.mk` images of character lists concatenates the
lists. -/
theorem string_join_mk (L : List (List Char)) :
    String.join (L.map String.mk) = String.mk L.flatten := by
  have h : ∀ (M : List (List Char)) (acc : List Char),
      (M.map String.mk).foldl (fun r t => r ++ t) (String.mk acc) =
        String.mk (acc ++ M.flatten) := by
    intro M
    induction M with
    | nil => intro acc; simp
    | cons x xs ih =>
      intro acc
      simp only [List.map_cons, List.foldl_cons, List.flatten_cons]
      rw [show String.mk acc ++ String.mk x = String.mk (acc ++ x) from rfl, ih]
      simp
  have h0 := h L []
  simpa [String.join] using h0

/-- A string equals the empty string exactly when its character list is
empty. -/
theorem string_eq_empty_iff (s : String) : s = "" ↔ s.data = [] := by
  constructor
  · rintro rfl; rfl
  · intro h
    cases s with
    | mk d => cases h; rfl

/-- C9: `RichTextObject.encode_string s` is a list of rich-text chunks -
each one built exactly as `from_value` builds one - whose text contents
are at most `RICH_TEXT_CONTENT_MAX_LENGTH` characters long and
concatenate, in order, back to `s`; the list is empty exactly when `s`
is empty. -/
theorem encode_string_chunking (s : String) :
    ∃ chunks : List String,
      RichTextObject.encode_string s = chunks.map RichTextObject.from_value ∧
      (∀ c ∈ chunks, c.length ≤ RICH_TEXT_CONTENT_MAX_LENGTH) ∧
      String.join chunks = s ∧
      (chunks = [] ↔ s = "") ∧
      (RichTextObject.encode_string s = [] ↔ s = "") := by
  have hk : RICH_TEXT_CONTENT_MAX_LENGTH ≠ 0 := by decide
  refine ⟨(chunkList RICH_TEXT_CONTENT_MAX_LENGTH s.data).map String.mk,
    ?_, ?_, ?_, ?_, ?_⟩
  · rw [RichTextObject.encode_string, List.map_map]
    rfl
  · intro c hc
    rcases List.mem_map.mp hc with ⟨cs, hcs, rfl⟩
    exact chunkList_length_le _ _ cs hcs
  · rw [string_join_mk, chunkList_flatten _ hk]
  · rw [List.map_eq_nil_iff, chunkList_eq_nil_iff _ hk, string_eq_empty_iff]
  · rw [RichTextObject.encode_string, List.map_eq_nil_iff,
      chunkList_eq_nil_iff _ hk, string_eq_empty_iff]

/-- With any error policy other than `"strict"` and `"warn"`, the row
loop behaves exactly as with `"ignore"`: every failure is silently
skipped and processing continues. -/
theorem processRows_other (errors : String) (h1 : errors ≠ "strict")
    (h2 : errors ≠ "warn") (l : List (Option String)) :
    processRows errors l =
      ⟨l.map (fun r => match r with
        | none => .success
        | some e => .silent e), none⟩ := by
  induction l with
  | nil => rfl
  | cons r rest ih =>
    rcases r with _ | e
    · simp [processRows, ih]
    · simp [processRows, h1, h2, ih]

/-- With `errors = "warn"` every failure is warned about and processing
continues through all rows; nothing is re-raised. -/
theorem processRows_warn (l : List (Option String)) :
    processRows "warn" l =
      ⟨l.map (fun r => match r with
        | none => .success
        | some e => .warned e), none⟩ := by
  induction l with
  | nil => rfl
  | cons r rest ih =>
    rcases r with _ | e
    · simp [processRows, ih]
    · simp [processRows, ih]

/-- With `errors = "strict"` the loop stops at the first failing row in
processing order and re-raises its exception. -/
theorem processRows_strict (pre : List (Option String)) (e : String)
    (post : List (Option String)) (hpre : ∀ x ∈ pre, x = none) :
    processRows "strict" (pre ++ some e :: post) =
      ⟨pre.map (fun _ => .success), some e⟩ := by
  induction pre with
  | nil => simp [processRows]
  | cons x xs ih =>
    have hx := hpre x (List.mem_cons_self x xs)
    subst hx
    simp only [List.cons_append, processRows, List.append_eq,
      ih (fun y hy => hpre y (List.mem_cons_of_mem _ hy)), List.map_cons]

/-- C1: `upload_to_database` follows the three-way per-row failure
policy over its iteration order (the reversed dataframe): with
`"strict"` the first failing row's exception is re-raised and no later
row is uploaded; with `"warn"` each failure is warned about and
uploading continues through every row; with `"ignore"` each failure is
silently skipped and uploading continues; and every other value of
`errors` behaves exactly as `"ignore"`, so these three are the only
failure-handling behaviours. -/
theorem upload_to_database_error_policy (rows : List (Option String)) :
    (∀ pre e post, rows.reverse = pre ++ some e :: post →
      (∀ x ∈ pre, x = none) →
      upload_to_database rows "strict" =
        ⟨pre.map (fun _ => .success), some e⟩) ∧
    upload_to_database rows "warn" =
      ⟨rows.reverse.map (fun r => match r with
        | none => .success
        | some e => .warned e), none⟩ ∧
    upload_to_database rows "ignore" =
      ⟨rows.reverse.map (fun r => match r with
        | none => .success
        | some e => .silent e), none⟩ ∧
    (∀ errors, errors ≠ "strict" → errors ≠ "warn" →
      upload_to_database rows errors = upload_to_database rows "ignore") := by
  refine ⟨?_, ?_, ?_, ?_⟩
  · intro pre e post hrev hpre
    rw [upload_to_database, hrev]
    exact processRows_strict pre e post hpre
  · rw [upload_to_database, processRows_warn]
  · rw [upload_to_database, processRows_other "ignore" (by decide) (by decide)]
  · intro errors h1 h2
    rw [upload_to_database, processRows_other errors h1 h2,
      upload_to_database, processRows_other "ignore" (by decide) (by decide)]

/-- Witness for `upload_to_database_error_policy` on a two-row
dataframe whose second-in-iteration row fails with `"boom"`. -/
theorem upload_to_database_error_policy_witness :
    upload_to_database [some "boom", none] "strict" =
      ⟨[.success], some "boom"⟩ ∧
    upload_to_database [some "boom", none] "warn" =
      ⟨[.success, .warned "boom"], none⟩ ∧
    upload_to_database [some "boom", none] "retry" =
      upload_to_database [some "boom", none] "ignore" := by
  have h := upload_to_database_error_policy [some "boom", none]
  refine ⟨?_, ?_, ?_⟩
  · exact h.1 [none] "boom" [] (by decide) (by intro x hx; simpa using hx)
  · exact h.2.1
  · exact h.2.2.2 "retry" (by decide) (by decide)

/-- C7 counterexample: a call whose dataframe fails the
schema-compatibility check raises `ValueError`, not
`NotImplementedError`, even though its mode `"w"` is neither `"a"` nor
`"append"` - the compatibility check precedes the mode check. -/
theorem upload_mode_counterexample :
    (("w" : String) ∉ (["a", "append"] : List String)) ∧
    (upload ⟨"dbid", "dburl", ⟨[]⟩, ⟨[]⟩, "uid"⟩ ⟨["col1"], none, []⟩ "nurl"
        true (some ⟨[]⟩) "w" "strict").1 =
      .error (.valueError
        "The dataframe is not compatible with the database schema.") ∧
    (upload ⟨"dbid", "dburl", ⟨[]⟩, ⟨[]⟩, "uid"⟩ ⟨["col1"], none, []⟩ "nurl"
        true (some ⟨[]⟩) "w" "strict").1 ≠ .error .notImplementedError := by
  refine ⟨by decide, rfl, ?_⟩
  intro h
  exact nomatch h

/-- C7 (amended): for every call to `upload` with a mode that is
neither `"a"` nor `"append"`, the dataframe is never transformed and no
row is uploaded, and the call raises; it raises `NotImplementedError`
when it passes the schema-compatibility check (in particular whenever
an explicitly passed schema is compatible), and otherwise raises the
compatibility `ValueError` first. -/
theorem upload_unimplemented_mode (env : UploadEnv) (df : DF)
    (notion_url : String) (is_db_url : Bool) (schema0 : Option Schema)
    (mode errors : String) (hmode : mode ∉ (["a", "append"] : List String)) :
    ((upload env df notion_url is_db_url schema0 mode errors).2.transformed
        = false ∧
      (upload env df notion_url is_db_url schema0 mode errors).2.rowEvents
        = []) ∧
    ((upload env df notion_url is_db_url schema0 mode errors).1 =
        .error .notImplementedError ∨
      (upload env df notion_url is_db_url schema0 mode errors).1 =
        .error (.valueError
          "The dataframe is not compatible with the database schema.")) ∧
    ((resolve_schema env df is_db_url schema0).is_df_compatible df.columns
        = true →
      (upload env df notion_url is_db_url schema0 mode errors).1 =
        .error .notImplementedError) ∧
    (∀ s, schema0 = some s → s.is_df_compatible df.columns = true →
      (upload env df notion_url is_db_url schema0 mode errors).1 =
        .error .notImplementedError) := by
  by_cases hc :
      (resolve_schema env df is_db_url schema0).is_df_compatible df.columns
  · refine ⟨⟨?_, ?_⟩, Or.inl ?_, fun _ => ?_, fun s hs _ => ?_⟩ <;>
      simp [upload, hc, hmode]
  · refine ⟨⟨?_, ?_⟩, Or.inr ?_, fun h => absurd h (by simpa using hc), ?_⟩
    · simp [upload, hc]
    · simp [upload, hc]
    · simp [upload, hc]
    · intro s hs hcomp
      subst hs
      exact absurd (by simpa [resolve_schema] using hcomp) hc

/-- Witness for `upload_unimplemented_mode`: with a compatible explicit
schema and mode `"w"`, the call raises `NotImplementedError` having
transformed nothing and uploaded nothing. -/
theorem upload_unimplemented_mode_witness :
    (upload ⟨"dbid", "dburl", ⟨[]⟩, ⟨[]⟩, "uid"⟩ ⟨["col1"], none, [none]⟩
        "nurl" true (some ⟨["col1"]⟩) "w" "strict").1 =
      .error .notImplementedError ∧
    (upload ⟨"dbid", "dburl", ⟨[]⟩, ⟨[]⟩, "uid"⟩ ⟨["col1"], none, [none]⟩
        "nurl" true (some ⟨["col1"]⟩) "w" "strict").2.transformed = false ∧
    (upload ⟨"dbid", "dburl", ⟨[]⟩, ⟨[]⟩, "uid"⟩ ⟨["col1"], none, [none]⟩
        "nurl" true (some ⟨["col1"]⟩) "w" "strict").2.rowEvents = [] := by
  have h := upload_unimplemented_mode ⟨"dbid", "dburl", ⟨[]⟩, ⟨[]⟩, "uid"⟩
    ⟨["col1"], none, [none]⟩ "nurl" true (some ⟨["col1"]⟩) "w" "strict"
    (by decide)
  exact ⟨h.2.2.2 ⟨["col1"]⟩ rfl (by decide), h.1.1, h.1.2⟩

/-- Unfolding `parse_blocks` on an empty input. -/
theorem parse_blocks_nil (fuel : Nat) (recursive : Bool)
    (client : Option BClient) :
    parse_blocks fuel [] recursive client = ([], .ok []) := by
  rw [parse_blocks]

/-- Unfolding `parse_blocks` on a nonempty input without a client: no
recursion into children can trigger, so the loop parses the head and
continues with the tail. -/
theorem parse_blocks_cons_noclient (fuel : Nat) (d : BlockData)
    (rest : List BlockData) (recursive : Bool) :
    parse_blocks fuel (d :: rest) recursive none =
      match parse_one_block d with
      | (w1, none) =>
        (w1, .error "AttributeError: NoneType object has no attribute has_children")
      | (w1, some b) =>
        match parse_blocks fuel rest recursive none with
        | (w3, .error e) => (w1 ++ w3, .error e)
        | (w3, .ok bs) => (w1 ++ w3, .ok (b :: bs)) := by
  rw [parse_blocks]

/-- C10: an element whose `"type"` is not a known block type makes
`parse_one_block` warn and return `None`, and `parse_blocks` then
raises an `AttributeError` reading `has_children` on that `None`
instead of skipping or collecting it; a fully parsed list is returned
only when every element's type is known. -/
theorem parse_blocks_unknown_type (data : List BlockData) (d0 : BlockData)
    (recursive : Bool) (fuel : Nat) :
    ((parse_one_block d0).2 = none ↔ d0.type ∉ BLOCKS_MAPPING_keys) ∧
    (d0.type ∉ BLOCKS_MAPPING_keys →
      (parse_one_block d0).1 = ["Unknown block type: " ++ d0.type]) ∧
    ((∃ d ∈ data, d.type ∉ BLOCKS_MAPPING_keys) →
      (parse_blocks fuel data recursive none).2 =
        .error "AttributeError: NoneType object has no attribute has_children") ∧
    (∀ bs, (parse_blocks fuel data recursive none).2 = .ok bs →
      ∀ d ∈ data, d.type ∈ BLOCKS_MAPPING_keys) := by
  refine ⟨?_, ?_, ?_, ?_⟩
  · by_cases h : d0.type ∈ BLOCKS_MAPPING_keys <;> simp [parse_one_block, h]
  · intro h; simp [parse_one_block, h]
  · induction data with
    | nil => rintro ⟨d, hd, _⟩; cases hd
    | cons x rest ih =>
      rintro ⟨d, hd, hdk⟩
      rw [parse_blocks_cons_noclient]
      rcases List.mem_cons.mp hd with rfl | hd'
      · simp [parse_one_block, hdk]
      · by_cases hx : x.type ∈ BLOCKS_MAPPING_keys
        · have hrest := ih ⟨d, hd', hdk⟩
          simp only [parse_one_block, hx, not_true_eq_false, if_neg,
            ite_false]
          rcases hpr : parse_blocks fuel rest recursive none with ⟨w3, r3⟩
          rw [hpr] at hrest
          rcases r3 with e | bs
          · simp at hrest
            subst hrest
            simp
          · simp at hrest
        · simp [parse_one_block, hx]
  · induction data with
    | nil =>
      intro bs _ d hd
      cases hd
    | cons x rest ih =>
      intro bs h d hd
      rw [parse_blocks_cons_noclient] at h
      by_cases hx : x.type ∈ BLOCKS_MAPPING_keys
      · simp only [parse_one_block, hx, not_true_eq_false, ite_false] at h
        rcases hpr : parse_blocks fuel rest recursive none with ⟨w3, r3⟩
        rw [hpr] at h
        rcases r3 with e | bs'
        · simp at h
        · rcases List.mem_cons.mp hd with rfl | hd'
          · exact hx
          · exact ih bs' (by rw [hpr]) d hd'
      · simp [parse_one_block, hx] at h

/-- Witness for `parse_blocks_unknown_type`: one known and one unknown
block; the unknown one warns and yields `None`, and `parse_blocks`
raises the `AttributeError`. -/
theorem parse_blocks_unknown_type_witness :
    (parse_one_block ⟨"bogus_type", none, none⟩).2 = none ∧
    (parse_one_block ⟨"bogus_type", none, none⟩).1 =
      ["Unknown block type: " ++ "bogus_type"] ∧
    (parse_blocks 0 [⟨"paragraph", none, none⟩, ⟨"bogus_type", none, none⟩]
        false none).2 =
      .error "AttributeError: NoneType object has no attribute has_children" := by
  have h := parse_blocks_unknown_type
    [⟨"paragraph", none, none⟩, ⟨"bogus_type", none, none⟩]
    ⟨"bogus_type", none, none⟩ false 0
  refine ⟨h.1.mpr (by decide), h.2.1 (by decide), ?_⟩
  exact h.2.2.1 ⟨⟨"bogus_type", none, none⟩, by simp, by decide⟩

end NotionDf
